import Mathlib

/-!
Shallow embedding of `src/modules/default/calendar/calendarfetcher.js`
(the MagicMirror calendar fetcher core), together with proofs about it.

Modelling conventions:
* `moment` instants are millisecond-precision integers (`Int`).
* The external transport collaborator is modelled by the `response`
  argument of `retrieveCallback`: `none` stands for a missing response
  object (`!response`, i.e. a transport error), `some (statusCode, body)`
  for a received HTTP response whose `body` may be `null` (`Option.none`).
* The external iCal parser (`./vendor/ical.js`) is modelled by a function
  parameter `parse : String → Option (List VEvent)`; `none` stands for the
  parser throwing (`ICAL.parse` raising a parse error).
* An uncaught JavaScript exception inside the callback is modelled as
  `Except.error st`, where `st` is the module-level state (the variables
  `events` and `failedRetrievals`) at the moment of the throw; mutations
  performed before the throw persist.  In the `Except.error` outcome no
  call to `scheduleTimer` happens and no listener is notified.
-/

namespace CalendarFetcher

/-- A parsed calendar component as exposed by `new ICAL.Event(vevent)`:
the fields the fetcher reads (`summary`, `startDate`, `endDate`,
`fullDayEvent`, `class`, `location`, `geo`, `description`).  Start and end
instants are millisecond timestamps (`moment(event.startDate.toJSDate())`
values).  The JS `class` field is named `cls` because `class` is a Lean
keyword; `geo` is kept as opaque text. -/
structure VEvent where
  summary : String
  startDate : Int
  endDate : Int
  fullDayEvent : Option Bool
  cls : Option String
  location : Option String
  geo : Option String
  description : Option String
deriving DecidableEq

/-- The canonical event record pushed onto `events` (lines 99-108 of the
source).  `startDate`/`endDate` are the same millisecond instants
(`moment(...).format("x")` renders the instant as a decimal string; the
numeric value is kept here). -/
structure CalendarEvent where
  title : String
  startDate : Int
  endDate : Int
  fullDayEvent : Option Bool
  cls : Option String
  location : Option String
  geo : Option String
  description : Option String
deriving DecidableEq

/-- The constructor parameters of `CalendarFetcher(url, reloadInterval,
excludedEvents, maximumEntries, maximumNumberOfDays, auth)` that
influence the behaviour modelled here.  `auth` only shapes the HTTP
request options and is omitted. -/
structure Config where
  url : String
  reloadInterval : Nat
  excludedEvents : List String
  maximumEntries : Nat
  maximumNumberOfDays : Nat
deriving DecidableEq

/-- The module-level mutable variables of one fetcher closure:
`events` and `failedRetrievals` (lines 16-18). -/
structure FetcherState where
  events : List CalendarEvent
  failedRetrievals : Nat
deriving DecidableEq

/-- The observable outcome of one completed `retrieveCallback` run:
the state after the run, the argument given to `scheduleTimer`, and
whether `self.broadcastEvents()` (the receive-listener) was invoked. -/
structure CycleResult where
  state : FetcherState
  scheduledDelay : Nat
  notified : Bool
deriving DecidableEq

/-- Line 98-108: translate one parsed component into the published
record; every field is passed through unchanged. -/
def translateEvent (event : VEvent) : CalendarEvent :=
  { title := event.summary
    startDate := event.startDate
    endDate := event.endDate
    fullDayEvent := event.fullDayEvent
    cls := event.cls
    location := event.location
    geo := event.geo
    description := event.description }

/-- `moment().startOf("day").add(maximumNumberOfDays, "days")
.subtract(1, "seconds")` (line 145), given the start-of-day instant
`sod` of `now`.  A day is 86400000 ms, a second 1000 ms. -/
def futureHorizon (sod : Int) (maximumNumberOfDays : Nat) : Int :=
  sod + (maximumNumberOfDays : Int) * 86400000 - 1000

/-- The loop body of `filterEvents` (lines 148-172): skip an event when
`endDate.isBefore(now)`, skip it when `startDate.isAfter(future)`,
otherwise push it onto `goodEvents`. -/
def filterLoop (now future : Int) : List VEvent → List VEvent
  | [] => []
  | vevent :: rest =>
    if vevent.endDate < now then
      filterLoop now future rest
    else if future < vevent.startDate then
      filterLoop now future rest
    else
      vevent :: filterLoop now future rest

/-- `filterEvents(vevents)` (lines 140-175): compute `now`'s horizon and
keep the in-window events, preserving their order. -/
def filterEvents (maximumNumberOfDays : Nat) (now sod : Int)
    (vevents : List VEvent) : List VEvent :=
  filterLoop now (futureHorizon sod maximumNumberOfDays) vevents

/-- The comparison relation of `filteredEvents.sort(function(a, b)
{ return a.startDate - b.startDate; })` (lines 88-90): non-decreasing
start instants.  `Array.prototype.sort` is a stable sort; it is modelled
by `List.insertionSort`, which is stable. -/
def startLe (a b : VEvent) : Prop :=
  a.startDate ≤ b.startDate

instance : DecidableRel startLe :=
  fun a b => inferInstanceAs (Decidable (a.startDate ≤ b.startDate))

instance : IsTotal VEvent startLe :=
  ⟨fun a b => Int.le_total a.startDate b.startDate⟩

instance : IsTrans VEvent startLe :=
  ⟨fun _ _ _ h1 h2 => le_trans h1 h2⟩

/-- Lines 87-109 of the success branch: filter, stable-sort ascending by
start instant, `slice(0, maximumEntries)`, and translate each survivor
into the published record. -/
def publishedEvents (cfg : Config) (now sod : Int)
    (allEvents : List VEvent) : List CalendarEvent :=
  (((filterEvents cfg.maximumNumberOfDays now sod allEvents).insertionSort
      startLe).take cfg.maximumEntries).map translateEvent

/-- Lines 84-119 after the `failedRetrievals = 0` reset: when
`allEvents.length > 0`, replace `events` wholesale with the published
list and invoke `self.broadcastEvents()`; otherwise only log.  Either
way, `scheduleTimer(reloadInterval)` runs at the end. -/
def retrieveSuccess (cfg : Config) (now sod : Int) (st : FetcherState)
    (allEvents : List VEvent) : CycleResult :=
  if 0 < allEvents.length then
    { state := { st with events := publishedEvents cfg now sod allEvents }
      scheduledDelay := cfg.reloadInterval
      notified := true }
  else
    { state := st
      scheduledDelay := cfg.reloadInterval
      notified := false }

/-- The three ways `parseCalendar(body)` (lines 125-134) can end:
a normal vevent list, the bare `return;` for a `null` body (yielding
`undefined`), or an exception thrown by the external `ical.parse`. -/
inductive ParseOutcome where
  | events (vevents : List VEvent)
  | undef
  | thrown
deriving DecidableEq

/-- `parseCalendar(icalData)` (lines 125-134), with the external parser
supplied as `parse` (`none` = the parser throws). -/
def parseCalendar (parse : String → Option (List VEvent)) :
    Option String → ParseOutcome
  | none => ParseOutcome.undef
  | some s =>
    match parse s with
    | none => ParseOutcome.thrown
    | some vevents => ParseOutcome.events vevents

/-- The failure branch of `retrieveCallback` (lines 70-78): below 3
consecutive failures, increment the counter and retry after 10000 ms;
otherwise reset the counter and wait the full `reloadInterval`.
`events` is untouched and no listener fires. -/
def retrieveFailure (reloadInterval : Nat) (st : FetcherState) :
    CycleResult :=
  if st.failedRetrievals < 3 then
    { state := { st with failedRetrievals := st.failedRetrievals + 1 }
      scheduledDelay := 10000
      notified := false }
  else
    { state := { st with failedRetrievals := 0 }
      scheduledDelay := reloadInterval
      notified := false }

/-- `retrieveCallback(err, response, body)` (lines 65-120).
With no response object the failure log itself dereferences
`response.statusCode` and throws (`Except.error st`).  On a non-200
status the failure policy runs.  On status 200 the counter is reset
first (line 82); then a `null` body makes `parseCalendar` return
`undefined` and `allEvents.length` throws, a parser exception
propagates uncaught, and a parsed list reaches the success path. -/
def retrieveCallback (cfg : Config) (now sod : Int)
    (parse : String → Option (List VEvent)) (st : FetcherState)
    (response : Option (Int × Option String)) :
    Except FetcherState CycleResult :=
  match response with
  | none => Except.error st
  | some (statusCode, body) =>
    if statusCode = 200 then
      match parseCalendar parse body with
      | ParseOutcome.events allEvents =>
        Except.ok (retrieveSuccess cfg now sod
          { st with failedRetrievals := 0 } allEvents)
      | ParseOutcome.undef =>
        Except.error { st with failedRetrievals := 0 }
      | ParseOutcome.thrown =>
        Except.error { st with failedRetrievals := 0 }
    else
      Except.ok (retrieveFailure cfg.reloadInterval st)

/-- The module-level state after a callback run, whether it completed
(`Except.ok`) or aborted on an uncaught exception (`Except.error`). -/
def resultState : Except FetcherState CycleResult → FetcherState
  | Except.error st => st
  | Except.ok r => r.state

/-- The raw event shape read by `isFullDayEvent` (lines 195-210):
`startLen` is the `length` of the raw `event.start` value (8 characters
for a date-only specification such as `"20170101"`), `startMs`/`endMs`
are the start and end instants in milliseconds. -/
structure RawEvent where
  startLen : Nat
  startMs : Int
  endMs : Int
deriving DecidableEq

/-- Milliseconds elapsed since local midnight for instant `t`, under a
fixed UTC offset `tzOffset` (ms); daylight-saving shifts are outside the
model.  This is what `new Date(t)`'s local accessors are computed
from. -/
def localTimeOfDay (tzOffset t : Int) : Nat :=
  ((t + tzOffset).emod 86400000).toNat

/-- `Date.prototype.getHours` for instant `t` under offset `tzOffset`. -/
def getHours (tzOffset t : Int) : Nat :=
  localTimeOfDay tzOffset t / 3600000

/-- `Date.prototype.getMinutes` for instant `t` under offset
`tzOffset`. -/
def getMinutes (tzOffset t : Int) : Nat :=
  localTimeOfDay tzOffset t % 3600000 / 60000

/-- `isFullDayEvent(event)` (lines 195-210): true when the raw start
specification is 8 characters long, or when the event lasts exactly
24 hours and starts at local hour 0, minute 0. -/
def isFullDayEvent (tzOffset : Int) (event : RawEvent) : Bool :=
  if event.startLen = 8 then
    true
  else if event.endMs - event.startMs = 86400000 ∧
      getHours tzOffset event.startMs = 0 ∧
      getMinutes tzOffset event.startMs = 0 then
    true
  else
    false

/-! ## Helper lemmas -/

/-- The filtering loop keeps exactly the elements passing both window
checks, in order. -/
theorem filterLoop_eq_filter (now future : Int) (l : List VEvent) :
    filterLoop now future l =
      l.filter (fun e =>
        !decide (e.endDate < now) && !decide (future < e.startDate)) := by
  induction l with
  | nil => rfl
  | cons v rest ih =>
    by_cases h1 : v.endDate < now
    · simp [filterLoop, h1, ih, List.filter_cons]
    · by_cases h2 : future < v.startDate
      · simp [filterLoop, h1, h2, ih, List.filter_cons]
      · simp [filterLoop, h1, h2, ih, List.filter_cons]

/-- Membership in the filtered list, characterised. -/
theorem mem_filterEvents {maximumNumberOfDays : Nat} {now sod : Int}
    {e : VEvent} {vevents : List VEvent} :
    e ∈ filterEvents maximumNumberOfDays now sod vevents ↔
      e ∈ vevents ∧ now ≤ e.endDate ∧
        e.startDate ≤ futureHorizon sod maximumNumberOfDays := by
  unfold filterEvents
  rw [filterLoop_eq_filter, List.mem_filter]
  simp [not_lt, and_assoc]

/-- `orderedInsert` never carries an element past another element with
the same start instant: restricted to one start value, inserting behaves
like consing. -/
theorem filter_startDate_orderedInsert (d : Int) (a : VEvent)
    (l : List VEvent) :
    (List.orderedInsert startLe a l).filter
        (fun e => decide (e.startDate = d)) =
      (a :: l).filter (fun e => decide (e.startDate = d)) := by
  induction l with
  | nil => rfl
  | cons b t ih =>
    by_cases hab : startLe a b
    · simp only [List.orderedInsert, if_pos hab]
    · have hba : b.startDate < a.startDate := lt_of_not_le hab
      simp only [List.orderedInsert, if_neg hab, List.filter_cons, ih]
      by_cases had : a.startDate = d
      · have hbd : ¬ b.startDate = d := by omega
        simp [had, hbd]
      · simp [had]

/-- Stability of the sort: restricted to any single start value, the
sorted list and the input list agree. -/
theorem filter_startDate_insertionSort (d : Int) (l : List VEvent) :
    (List.insertionSort startLe l).filter
        (fun e => decide (e.startDate = d)) =
      l.filter (fun e => decide (e.startDate = d)) := by
  induction l with
  | nil => rfl
  | cons a t ih =>
    simp only [List.insertionSort]
    rw [filter_startDate_orderedInsert]
    simp only [List.filter_cons, ih]

/-- Filtering a truncation yields a truncation of the filtering. -/
theorem exists_take_filter {α : Type} (p : α → Bool) :
    ∀ (l : List α) (n : Nat),
      ∃ k, (l.take n).filter p = (l.filter p).take k := by
  intro l
  induction l with
  | nil => intro n; exact ⟨0, by simp⟩
  | cons a t ih =>
    intro n
    cases n with
    | zero => exact ⟨0, by simp⟩
    | succ m =>
      obtain ⟨k, hk⟩ := ih m
      by_cases ha : p a
      · exact ⟨k + 1, by simp [List.filter_cons, ha, hk]⟩
      · exact ⟨k, by simp [List.filter_cons, ha, hk]⟩

/-- `translateEvent` keeps start instants, so it commutes with filtering
by a start value. -/
theorem filter_map_translateEvent (d : Int) (l : List VEvent) :
    (l.map translateEvent).filter (fun e => decide (e.startDate = d)) =
      (l.filter (fun v => decide (v.startDate = d))).map translateEvent := by
  induction l with
  | nil => rfl
  | cons v t ih =>
    by_cases hv : v.startDate = d
    · simp [List.filter_cons, translateEvent, hv, ih]
    · simp [List.filter_cons, translateEvent, hv, ih]

/-! ## Claim theorems -/

/-- C5: the time window filter, given `now`, `maximumNumberOfDays` and a
candidate event, excludes every event whose `endDate` is strictly before
`now` and every event whose `startDate` is strictly after
`startOfDay(now) + maximumNumberOfDays` days minus one second, retains
all other events, and every survivor satisfies `endDate ≥ now` and
`startDate ≤` that horizon. -/
theorem filterEvents_window (maximumNumberOfDays : Nat) (now sod : Int)
    (vevents : List VEvent) (e : VEvent) :
    (e.endDate < now →
      e ∉ filterEvents maximumNumberOfDays now sod vevents) ∧
    (futureHorizon sod maximumNumberOfDays < e.startDate →
      e ∉ filterEvents maximumNumberOfDays now sod vevents) ∧
    (e ∈ vevents → now ≤ e.endDate →
      e.startDate ≤ futureHorizon sod maximumNumberOfDays →
      e ∈ filterEvents maximumNumberOfDays now sod vevents) ∧
    (e ∈ filterEvents maximumNumberOfDays now sod vevents →
      now ≤ e.endDate ∧
        e.startDate ≤ futureHorizon sod maximumNumberOfDays) := by
  refine ⟨fun h hmem => ?_, fun h hmem => ?_,
    fun h1 h2 h3 => mem_filterEvents.mpr ⟨h1, h2, h3⟩,
    fun h => (mem_filterEvents.mp h).2⟩
  · rcases mem_filterEvents.mp hmem with ⟨_, h2, _⟩
    omega
  · rcases mem_filterEvents.mp hmem with ⟨_, _, h3⟩
    omega

/-- Witness for C5 at a concrete input: with `now = 100000`,
`sod = 0` and a one-day horizon, a fully past event is excluded and an
in-window event is retained. -/
theorem filterEvents_window_witness :
    (⟨"past", 0, 50000, none, none, none, none, none⟩ : VEvent) ∉
        filterEvents 1 100000 0
          [⟨"past", 0, 50000, none, none, none, none, none⟩,
           ⟨"good", 200000, 300000, none, none, none, none, none⟩] ∧
    (⟨"good", 200000, 300000, none, none, none, none, none⟩ : VEvent) ∈
        filterEvents 1 100000 0
          [⟨"past", 0, 50000, none, none, none, none, none⟩,
           ⟨"good", 200000, 300000, none, none, none, none, none⟩] :=
  ⟨(filterEvents_window 1 100000 0 _ _).1 (by decide),
   (filterEvents_window 1 100000 0 _ _).2.2.1 (by decide) (by decide)
     (by decide)⟩

/-- C6: every cycle outcome keeps the held event list within
`maximumEntries` (provided it was within the bound before, which holds
from the initial empty list on), and every freshly published list is
within the bound unconditionally. -/
theorem events_length_le_maximumEntries (cfg : Config) (now sod : Int)
    (parse : String → Option (List VEvent)) (st : FetcherState)
    (response : Option (Int × Option String))
    (h : st.events.length ≤ cfg.maximumEntries) :
    (resultState (retrieveCallback cfg now sod parse st
        response)).events.length ≤ cfg.maximumEntries ∧
    ∀ allEvents, (publishedEvents cfg now sod allEvents).length ≤
      cfg.maximumEntries := by
  have hpub : ∀ allEvents,
      (publishedEvents cfg now sod allEvents).length ≤
        cfg.maximumEntries := by
    intro a
    unfold publishedEvents
    rw [List.length_map, List.length_take]
    exact min_le_left _ _
  refine ⟨?_, hpub⟩
  cases response with
  | none => simpa [retrieveCallback, resultState] using h
  | some rb =>
    obtain ⟨code, body⟩ := rb
    by_cases hc : code = 200
    · simp only [retrieveCallback, if_pos hc]
      cases hpc : parseCalendar parse body with
      | events allEvents =>
        simp only [resultState, retrieveSuccess]
        by_cases hlen : 0 < allEvents.length
        · simp only [if_pos hlen]
          exact hpub allEvents
        · simp only [if_neg hlen]
          exact h
      | undef => simpa [resultState] using h
      | thrown => simpa [resultState] using h
    · simp only [retrieveCallback, if_neg hc, resultState, retrieveFailure]
      by_cases hf : st.failedRetrievals < 3
      · simp only [if_pos hf]
        exact h
      · simp only [if_neg hf]
        exact h

/-- Witness for C6 at a concrete input: starting from the empty list
with `maximumEntries = 2`, a transport-error outcome keeps the list
within the bound. -/
theorem events_length_le_maximumEntries_witness :
    (FetcherState.mk [] 0).events.length ≤
        (Config.mk "u" 300000 [] 2 30).maximumEntries ∧
    (resultState (retrieveCallback ⟨"u", 300000, [], 2, 30⟩ 0 0
        (fun _ => some []) ⟨[], 0⟩ none)).events.length ≤
      (Config.mk "u" 300000 [] 2 30).maximumEntries :=
  ⟨by decide,
   (events_length_le_maximumEntries ⟨"u", 300000, [], 2, 30⟩ 0 0
      (fun _ => some []) ⟨[], 0⟩ none (by decide)).1⟩

/-- C4: the published event list is sorted non-decreasing by
`startDate`, and, restricted to any single start instant, it is a
truncation of the filtered input sequence in its original order (the
sort is stable and applies no secondary key; the later `slice` only
shortens the list). -/
theorem publishedEvents_sorted_stable (cfg : Config) (now sod : Int)
    (allEvents : List VEvent) (d : Int) :
    List.Sorted (fun a b : CalendarEvent => a.startDate ≤ b.startDate)
        (publishedEvents cfg now sod allEvents) ∧
    ∃ k, (publishedEvents cfg now sod allEvents).filter
          (fun e => decide (e.startDate = d)) =
        (((filterEvents cfg.maximumNumberOfDays now sod allEvents).map
            translateEvent).filter
          (fun e => decide (e.startDate = d))).take k := by
  constructor
  · have hs : List.Sorted startLe
        (List.insertionSort startLe
          (filterEvents cfg.maximumNumberOfDays now sod allEvents)) :=
      List.sorted_insertionSort startLe _
    have ht : List.Sorted startLe
        ((List.insertionSort startLe
            (filterEvents cfg.maximumNumberOfDays now sod
              allEvents)).take cfg.maximumEntries) :=
      List.Pairwise.sublist (List.take_sublist _ _) hs
    exact List.pairwise_map.mpr ht
  · obtain ⟨k, hk⟩ := exists_take_filter
      (fun e : VEvent => decide (e.startDate = d))
      (List.insertionSort startLe
        (filterEvents cfg.maximumNumberOfDays now sod allEvents))
      cfg.maximumEntries
    refine ⟨k, ?_⟩
    unfold publishedEvents
    rw [filter_map_translateEvent, hk, filter_startDate_insertionSort,
      filter_map_translateEvent, List.map_take]

/-- C7 (amended): on a 200 response whose body is present and parses,
the counter ends at 0 and `scheduleTimer` receives exactly the
configured reload interval, whether or not any events came back. -/
theorem success_resets_counter_and_reschedules (cfg : Config)
    (now sod : Int) (parse : String → Option (List VEvent))
    (st : FetcherState) (s : String) (allEvents : List VEvent)
    (h : parse s = some allEvents) :
    retrieveCallback cfg now sod parse st (some (200, some s)) =
      Except.ok (retrieveSuccess cfg now sod
        { st with failedRetrievals := 0 } allEvents) ∧
    (retrieveSuccess cfg now sod { st with failedRetrievals := 0 }
        allEvents).state.failedRetrievals = 0 ∧
    (retrieveSuccess cfg now sod { st with failedRetrievals := 0 }
        allEvents).scheduledDelay = cfg.reloadInterval := by
  refine ⟨by simp [retrieveCallback, parseCalendar, h], ?_, ?_⟩ <;>
    · unfold retrieveSuccess
      by_cases hlen : 0 < allEvents.length
      · simp [hlen]
      · simp [hlen]

/-- Witness for C7 at a concrete input: a 200 response whose body
parses to zero events resets the counter from 2 to 0 and re-arms with
the reload interval. -/
theorem success_resets_counter_and_reschedules_witness :
    retrieveCallback ⟨"u", 300000, [], 10, 30⟩ 0 0 (fun _ => some [])
        ⟨[], 2⟩ (some (200, some "DATA")) =
      Except.ok (retrieveSuccess ⟨"u", 300000, [], 10, 30⟩ 0 0
        ⟨[], 0⟩ []) ∧
    (retrieveSuccess ⟨"u", 300000, [], 10, 30⟩ 0 0 ⟨[], 0⟩
        []).state.failedRetrievals = 0 ∧
    (retrieveSuccess ⟨"u", 300000, [], 10, 30⟩ 0 0 ⟨[], 0⟩
        []).scheduledDelay = 300000 :=
  success_resets_counter_and_reschedules ⟨"u", 300000, [], 10, 30⟩ 0 0
    (fun _ => some []) ⟨[], 2⟩ "DATA" [] rfl

/-- C7 counterexample to the claim as stated: a fetch with HTTP status
200 but a `null` body ends in an uncaught exception (`Except.error`):
no `scheduleTimer` call happens at all, so the next attempt is not
scheduled after the reload interval (the counter is still reset to 0,
because line 82 runs before the throw). -/
theorem success_null_body_not_rescheduled :
    retrieveCallback ⟨"u", 300000, [], 10, 30⟩ 0 0 (fun _ => some [])
        ⟨[], 1⟩ (some (200, none)) = Except.error ⟨[], 0⟩ := rfl

/-- C10: the consecutive-failure counter stays in `0..=3` across every
callback outcome (completed or crashed), and any 200-status retrieval
leaves it at exactly 0. -/
theorem failedRetrievals_bounded (cfg : Config) (now sod : Int)
    (parse : String → Option (List VEvent)) (st : FetcherState)
    (response : Option (Int × Option String))
    (h : st.failedRetrievals ≤ 3) :
    (resultState (retrieveCallback cfg now sod parse st
        response)).failedRetrievals ≤ 3 ∧
    ∀ body, (resultState (retrieveCallback cfg now sod parse st
        (some (200, body)))).failedRetrievals = 0 := by
  have h200 : ∀ body,
      (resultState (retrieveCallback cfg now sod parse st
        (some (200, body)))).failedRetrievals = 0 := by
    intro body
    simp only [retrieveCallback, if_pos rfl]
    cases parseCalendar parse body with
    | events allEvents =>
      simp only [resultState, retrieveSuccess]
      by_cases hlen : 0 < allEvents.length
      · simp [hlen]
      · simp [hlen]
    | undef => rfl
    | thrown => rfl
  refine ⟨?_, h200⟩
  cases response with
  | none => simpa [retrieveCallback, resultState] using h
  | some rb =>
    obtain ⟨code, body⟩ := rb
    by_cases hc : code = 200
    · subst hc
      rw [h200 body]
      omega
    · simp only [retrieveCallback, if_neg hc, resultState, retrieveFailure]
      by_cases hf : st.failedRetrievals < 3
      · simp only [if_pos hf]
        omega
      · simp only [if_neg hf]
        simp

/-- Witness for C10 at a concrete input: from a state with counter 3, a
503 outcome keeps the counter within the bound and a 200 outcome resets
it to 0. -/
theorem failedRetrievals_bounded_witness :
    (resultState (retrieveCallback ⟨"u", 300000, [], 10, 30⟩ 0 0
        (fun _ => some []) ⟨[], 3⟩
        (some (503, none)))).failedRetrievals ≤ 3 ∧
    (resultState (retrieveCallback ⟨"u", 300000, [], 10, 30⟩ 0 0
        (fun _ => some []) ⟨[], 3⟩
        (some (200, some "DATA")))).failedRetrievals = 0 :=
  ⟨(failedRetrievals_bounded ⟨"u", 300000, [], 10, 30⟩ 0 0
      (fun _ => some []) ⟨[], 3⟩ (some (503, none)) (by decide)).1,
   (failedRetrievals_bounded ⟨"u", 300000, [], 10, 30⟩ 0 0
      (fun _ => some []) ⟨[], 3⟩ (some (503, none)) (by decide)).2
     (some "DATA")⟩

/-- C1 counterexample to the claim as stated: a cycle whose parse
yields one entirely past event has an empty filtered set, yet the held
list is wholesale-replaced by the empty list (clobbering the previous
good result) and the receive-listener is invoked. -/
theorem retrieveSuccess_empty_filtered_still_notifies :
    filterEvents 1 100000 0
        [⟨"past", 0, 50000, none, none, none, none, none⟩] = [] ∧
    (retrieveSuccess ⟨"u", 300000, [], 10, 1⟩ 100000 0
        ⟨[⟨"prev", 1, 2, none, none, none, none, none⟩], 0⟩
        [⟨"past", 0, 50000, none, none, none, none, none⟩]).notified =
      true ∧
    (retrieveSuccess ⟨"u", 300000, [], 10, 1⟩ 100000 0
        ⟨[⟨"prev", 1, 2, none, none, none, none, none⟩], 0⟩
        [⟨"past", 0, 50000, none, none, none, none, none⟩]).state.events =
      [] := by
  decide

/-- C1 (amended): the success branch replaces the held list and invokes
the listener exactly when the *parsed* event set (`allEvents`) is
non-empty; an empty parse leaves the state untouched and silent, while a
non-empty parse always publishes the filtered-sorted-truncated list,
even when that list is empty. -/
theorem retrieveSuccess_publish_iff_parsed_nonempty (cfg : Config)
    (now sod : Int) (st : FetcherState) (allEvents : List VEvent) :
    ((retrieveSuccess cfg now sod st allEvents).notified = true ↔
      allEvents ≠ []) ∧
    (allEvents = [] →
      (retrieveSuccess cfg now sod st allEvents).state = st) ∧
    (allEvents ≠ [] →
      (retrieveSuccess cfg now sod st allEvents).state.events =
        publishedEvents cfg now sod allEvents) := by
  cases allEvents with
  | nil => simp [retrieveSuccess]
  | cons a t =>
    refine ⟨?_, ?_, ?_⟩ <;>
      simp [retrieveSuccess, Nat.succ_pos]

/-- Witness for C1 at a concrete input: a one-event parse notifies and
publishes, an empty parse does not notify. -/
theorem retrieveSuccess_publish_iff_parsed_nonempty_witness :
    (retrieveSuccess ⟨"u", 300000, [], 10, 1⟩ 100000 0 ⟨[], 0⟩
        [⟨"good", 200000, 300000, none, none, none, none,
          none⟩]).state.events =
      publishedEvents ⟨"u", 300000, [], 10, 1⟩ 100000 0
        [⟨"good", 200000, 300000, none, none, none, none, none⟩] ∧
    (retrieveSuccess ⟨"u", 300000, [], 10, 1⟩ 100000 0 ⟨[], 0⟩
        []).state = ⟨[], 0⟩ :=
  ⟨(retrieveSuccess_publish_iff_parsed_nonempty ⟨"u", 300000, [], 10, 1⟩
      100000 0 ⟨[], 0⟩ _).2.2 (by decide),
   (retrieveSuccess_publish_iff_parsed_nonempty ⟨"u", 300000, [], 10, 1⟩
      100000 0 ⟨[], 0⟩ []).2.1 rfl⟩

/-- C2 counterexample to the claim as stated: with
`excludedEvents = ["Birthday"]`, an in-window event titled `"Birthday"`
still appears in the published list. -/
theorem excluded_event_published :
    (retrieveSuccess ⟨"u", 300000, ["Birthday"], 10, 1⟩ 100000 0
        ⟨[], 0⟩
        [⟨"Birthday", 200000, 300000, none, none, none, none,
          none⟩]).state.events =
      [⟨"Birthday", 200000, 300000, none, none, none, none, none⟩] ∧
    "Birthday" ∈
      (Config.mk "u" 300000 ["Birthday"] 10 1).excludedEvents := by
  decide

/-- C2 (amended): the `excludedEvents` constructor parameter is
accepted but never consulted; the cycle's outcome is identical for any
value of it, so no exclusion filtering happens before (or after) the
time-window filter. -/
theorem retrieveSuccess_independent_of_excludedEvents (cfg : Config)
    (ex : List String) (now sod : Int) (st : FetcherState)
    (allEvents : List VEvent) :
    retrieveSuccess { cfg with excludedEvents := ex } now sod st
        allEvents =
      retrieveSuccess cfg now sod st allEvents := rfl

/-- C3 counterexample to the claim as stated: starting from a fresh
counter, the third consecutive failure schedules the fourth attempt
after another 10-second short retry (not the 300000 ms reload interval)
and leaves the counter at 3, not 0. -/
theorem third_failure_short_retry :
    (retrieveFailure 300000
        ((retrieveFailure 300000
            ((retrieveFailure 300000 ⟨[], 0⟩).state)).state)).scheduledDelay =
      10000 ∧
    (retrieveFailure 300000
        ((retrieveFailure 300000
            ((retrieveFailure 300000
              ⟨[], 0⟩).state)).state)).state.failedRetrievals = 3 ∧
    (10000 : Nat) ≠ 300000 := by
  decide

/-- C3 (amended): from a fresh counter, the first three consecutive
failures each schedule a 10-second retry and step the counter to 1, 2,
then 3; the *fourth* consecutive failure resets the counter to 0 and
schedules the fifth attempt after the full reload interval. -/
theorem failure_backoff_sequence (reload : Nat) (st : FetcherState)
    (h : st.failedRetrievals = 0) :
    (retrieveFailure reload st).scheduledDelay = 10000 ∧
    (retrieveFailure reload st).state.failedRetrievals = 1 ∧
    (retrieveFailure reload
        (retrieveFailure reload st).state).scheduledDelay = 10000 ∧
    (retrieveFailure reload
        (retrieveFailure reload st).state).state.failedRetrievals = 2 ∧
    (retrieveFailure reload
        (retrieveFailure reload
          (retrieveFailure reload st).state).state).scheduledDelay =
      10000 ∧
    (retrieveFailure reload
        (retrieveFailure reload
          (retrieveFailure reload
            st).state).state).state.failedRetrievals = 3 ∧
    (retrieveFailure reload
        (retrieveFailure reload
          (retrieveFailure reload
            (retrieveFailure reload
              st).state).state).state).scheduledDelay = reload ∧
    (retrieveFailure reload
        (retrieveFailure reload
          (retrieveFailure reload
            (retrieveFailure reload
              st).state).state).state).state.failedRetrievals = 0 := by
  obtain ⟨ev, c⟩ := st
  simp only at h
  subst h
  simp [retrieveFailure]

/-- Witness for C3 at a concrete input: the full four-failure schedule
from the initial state with a 300000 ms reload interval. -/
theorem failure_backoff_sequence_witness :
    (retrieveFailure 300000 ⟨[], 0⟩).scheduledDelay = 10000 ∧
    (retrieveFailure 300000 ⟨[], 0⟩).state.failedRetrievals = 1 ∧
    (retrieveFailure 300000
        (retrieveFailure 300000 ⟨[], 0⟩).state).scheduledDelay = 10000 ∧
    (retrieveFailure 300000
        (retrieveFailure 300000
          ⟨[], 0⟩).state).state.failedRetrievals = 2 ∧
    (retrieveFailure 300000
        (retrieveFailure 300000
          (retrieveFailure 300000 ⟨[], 0⟩).state).state).scheduledDelay =
      10000 ∧
    (retrieveFailure 300000
        (retrieveFailure 300000
          (retrieveFailure 300000
            ⟨[], 0⟩).state).state).state.failedRetrievals = 3 ∧
    (retrieveFailure 300000
        (retrieveFailure 300000
          (retrieveFailure 300000
            (retrieveFailure 300000
              ⟨[], 0⟩).state).state).state).scheduledDelay = 300000 ∧
    (retrieveFailure 300000
        (retrieveFailure 300000
          (retrieveFailure 300000
            (retrieveFailure 300000
              ⟨[], 0⟩).state).state).state).state.failedRetrievals = 0 :=
  failure_backoff_sequence 300000 ⟨[], 0⟩ rfl

/-- C8: evaluating the code at the failing inputs.  A 200 response with
a `null` body makes `parseCalendar` return `undefined` and the callback
throws reading `allEvents.length`; a body the external parser rejects
propagates the parser's exception.  Either way the cycle aborts
(`Except.error`): the previous list and the already-reset counter
survive, but no `scheduleTimer(reloadInterval)` call ever runs, so the
fetch loop halts instead of completing as a zero-event cycle. -/
theorem null_body_crashes_cycle :
    retrieveCallback ⟨"u", 60000, [], 5, 7⟩ 0 0 (fun _ => some [])
        ⟨[⟨"prev", 1, 2, none, none, none, none, none⟩], 2⟩
        (some (200, none)) =
      Except.error ⟨[⟨"prev", 1, 2, none, none, none, none, none⟩], 0⟩ ∧
    retrieveCallback ⟨"u", 60000, [], 5, 7⟩ 0 0 (fun _ => none)
        ⟨[⟨"prev", 1, 2, none, none, none, none, none⟩], 2⟩
        (some (200, some "NOT AN ICAL BODY")) =
      Except.error ⟨[⟨"prev", 1, 2, none, none, none, none, none⟩], 0⟩ :=
  ⟨rfl, rfl⟩

/-- C9 counterexample to the claim as stated: an event lasting exactly
24 hours whose start is 30 seconds *after* local midnight (so not
exactly at midnight, and with a 15-character raw start, not date-only)
is still classified as full-day, because the code inspects only the
hour and minute fields. -/
theorem fullDay_true_at_nonmidnight_start :
    isFullDayEvent 0 ⟨15, 30000, 86430000⟩ = true ∧
    localTimeOfDay 0 30000 ≠ 0 ∧
    (15 : Nat) ≠ 8 := by
  decide

/-- C9 (amended): `isFullDayEvent` returns true exactly when the raw
start specification is 8 characters (date-only precision), or the
duration is exactly 24 hours and the start instant falls within the
first *minute* of its local day (hour 0, minute 0; seconds and
milliseconds are not inspected).  The normalizer itself passes the
parser-supplied `fullDayEvent` flag through unchanged and never invokes
this helper. -/
theorem isFullDayEvent_iff (tzOffset : Int) (e : RawEvent) (v : VEvent) :
    (isFullDayEvent tzOffset e = true ↔
      e.startLen = 8 ∨
        (e.endMs - e.startMs = 86400000 ∧
          localTimeOfDay tzOffset e.startMs < 60000)) ∧
    (translateEvent v).fullDayEvent = v.fullDayEvent := by
  refine ⟨?_, rfl⟩
  unfold isFullDayEvent getHours getMinutes
  generalize localTimeOfDay tzOffset e.startMs = t
  have hgen : (t / 3600000 = 0 ∧ t % 3600000 / 60000 = 0) ↔
      t < 60000 := by omega
  split_ifs with h8 hcond
  · simp [h8]
  · rcases hcond with ⟨hd, hh, hm⟩
    simp [h8, hd, hgen.mp ⟨hh, hm⟩]
  · constructor
    · intro hfalse
      simp at hfalse
    · intro hor
      rcases hor with h | ⟨hd, hlt⟩
      · exact absurd h h8
      · exact absurd ⟨hd, (hgen.mpr hlt).1, (hgen.mpr hlt).2⟩ hcond

end CalendarFetcher
